import Mathlib

/-!
Verification of the Notification Dispatch Subsystem of the fact-check bot
(`src/main.py`): the subscriber registry (`subscribers`, `subscribers.json`),
the dedup cursor (`last_sent_article_url`), the periodic dispatch job
(`send_hoax_notification`) and the fan-out delivery loop with per-recipient
failure handling.

The embedding is shallow: every Python function of the subsystem becomes a
Lean function over explicit state.  Python exceptions are modelled with
`Except`; external collaborators (NewsAPI, the Telegram delivery channel,
the snapshot file) are modelled by explicit outcome values that drive the
code's branches.
-/

namespace CekFakta

/-- Kinds of `requests.exceptions.RequestException` that the NewsAPI call in
`fetch_latest_hoaxes` can raise: a connection-level error from
`requests.get`, an HTTP error status from `response.raise_for_status()`,
or a body that fails to decode as JSON in `response.json()`
(`requests.exceptions.JSONDecodeError`, a `RequestException` subclass). -/
inductive ReqErrKind where
  | connectionError
  | httpStatusError
  | jsonDecodeError
  deriving DecidableEq

/-- Python exceptions relevant to the subsystem. -/
inductive PyErr where
  /-- any `requests.exceptions.RequestException` -/
  | requestException (kind : ReqErrKind)
  /-- `json.JSONDecodeError` raised by `json.load` on an unparsable file -/
  | jsonDecodeError
  /-- `FileNotFoundError` raised by `open` on an absent file -/
  | fileNotFound
  /-- an arbitrary exception raised by `context.bot.send_message` -/
  | sendError
  deriving DecidableEq

/-- The `except requests.exceptions.RequestException` clause in
`fetch_latest_hoaxes` catches exactly these errors. -/
def PyErr.isRequestException : PyErr → Bool
  | .requestException _ => true
  | _ => false

/-- One article dictionary from the NewsAPI response, as the code reads it:
`truthy` is the Python truthiness of the dict (`if latest_article`), and the
other fields are what `.get` returns (absent key gives `None`). -/
structure Article where
  truthy : Bool
  url : Option String
  title : Option String
  sourceName : Option String
  deriving DecidableEq

/-- Outcome of one NewsAPI poll, driving the branches of
`fetch_latest_hoaxes`: the three `RequestException` cases, or a decoded
JSON object carrying `totalResults` and the `articles` list (absent keys
modelled by the `.get` defaults `0` and `[]`). -/
inductive FeedOutcome where
  | netError
  | httpError
  | decodeError
  | ok (totalResults : Int) (articles : List Article)
  deriving DecidableEq

/-- The body of the `try` block of `fetch_latest_hoaxes`:
`requests.get`, `raise_for_status`, `response.json()` and the final
expression `data.get('articles', []) if data.get('totalResults', 0) > 0
else None`. -/
def fetchBody : FeedOutcome → Except PyErr (Option (List Article))
  | .netError => .error (.requestException .connectionError)
  | .httpError => .error (.requestException .httpStatusError)
  | .decodeError => .error (.requestException .jsonDecodeError)
  | .ok totalResults articles =>
      .ok (if 0 < totalResults then some articles else none)

/-- `fetch_latest_hoaxes` (src/main.py lines 47-58): the `try` body with the
`except requests.exceptions.RequestException` handler, which logs and
returns `None`; any other exception would propagate. -/
def fetch_latest_hoaxes (feed : FeedOutcome) : Except PyErr (Option (List Article)) :=
  match fetchBody feed with
  | .ok v => .ok v
  | .error e => if e.isRequestException then .ok none else .error e

/-- Contents of `subscribers.json` as observable on disk: absent, present
but not syntactically valid JSON, truncated mid-write, or a complete
serialized list of chat ids. -/
inductive FileState where
  | absent
  | malformedFile
  | truncated
  | content (ids : List Int)
  deriving DecidableEq

/-- The process-wide mutable state of the subsystem: the `subscribers`
set (as its enumeration order, kept duplicate-free), the on-disk
`subscribers.json`, the dedup cursor `last_sent_article_url`, and a log of
the argument of every completed `save_subscribers` call. -/
structure BotState where
  subscribers : List Int
  fileState : FileState
  lastSentArticleUrl : Option String
  saveLog : List (List Int)
  deriving DecidableEq

/-- `save_subscribers` (lines 42-44): the completed effect —
`subscribers.json` holds `json.dump(list(subscribers))`. -/
def save_subscribers (subs : List Int) : FileState :=
  FileState.content subs

/-- The sequence of on-disk states `save_subscribers` drives the snapshot
file through: `open(SUBSCRIBERS_FILE, 'w')` truncates the snapshot file in
place, then `json.dump` writes the full serialization.  There is no
temporary file and no rename. -/
def save_subscribers_steps (subs : List Int) : List FileState :=
  [FileState.truncated, FileState.content subs]

/-- Perform a `save_subscribers()` call from a state: rewrite the file with
the current set and log the call. -/
def doSave (st : BotState) : BotState :=
  { st with fileState := save_subscribers st.subscribers,
            saveLog := st.saveLog ++ [st.subscribers] }

/-- The body of the `try` block of `load_subscribers`: `open` raises
`FileNotFoundError` on an absent file, `json.load` raises
`json.JSONDecodeError` on an unparsable file (including a truncated one),
and otherwise `set(json.load(f))` deduplicates the stored list. -/
def loadBody : FileState → Except PyErr (List Int)
  | .absent => .error .fileNotFound
  | .malformedFile => .error .jsonDecodeError
  | .truncated => .error .jsonDecodeError
  | .content ids => .ok ids.dedup

/-- `load_subscribers` (lines 32-40): only `FileNotFoundError` is caught
(yielding the empty set); every other exception propagates. -/
def load_subscribers (fs : FileState) : Except PyErr (List Int) :=
  match loadBody fs with
  | .ok subs => .ok subs
  | .error PyErr.fileNotFound => .ok []
  | .error e => .error e

/-- `main` (lines 331-350), up to the point the process starts serving:
`load_subscribers()` runs first; an exception escaping it aborts startup
before the application is built and polled. -/
def main (fs : FileState) : Except PyErr BotState :=
  match load_subscribers fs with
  | .error e => .error e
  | .ok subs => .ok ⟨subs, fs, none, []⟩

/-- Result reported by the subscribe entry points. -/
inductive AddOutcome where
  | already_present
  | added
  deriving DecidableEq

/-- `subscribe_command` (lines 189-197), and identically the `subscribe`
branch of `button_handler` (lines 279-289): if the chat id is already in
`subscribers` only a reply is sent; otherwise it is added and
`save_subscribers()` runs. -/
def subscribe_command (chatId : Int) (st : BotState) : AddOutcome × BotState :=
  if chatId ∈ st.subscribers then (AddOutcome.already_present, st)
  else (AddOutcome.added, doSave { st with subscribers := st.subscribers ++ [chatId] })

/-- Accumulator of the fan-out `for` loop: the live state plus the log of
delivery attempts and of successful deliveries. -/
structure FanoutAcc where
  st : BotState
  attempts : List Int
  delivered : List Int
  deriving DecidableEq

/-- One iteration of the fan-out loop (lines 73-80): attempt
`context.bot.send_message(chat_id, ...)`; on any exception, discard the
recipient from the live `subscribers` set and call `save_subscribers()`.
`deliver chatId = none` models a successful send, `some e` a raised
exception. -/
def fanoutStep (deliver : Int → Option PyErr) (acc : FanoutAcc) (chatId : Int) : FanoutAcc :=
  match deliver chatId with
  | none =>
      { acc with attempts := acc.attempts ++ [chatId],
                 delivered := acc.delivered ++ [chatId] }
  | some _ =>
      let st1 := { acc.st with
                   subscribers := acc.st.subscribers.filter (fun x => decide (x ≠ chatId)) }
      { st := doSave st1,
        attempts := acc.attempts ++ [chatId],
        delivered := acc.delivered }

/-- The whole fan-out loop: `for chat_id in list(subscribers)` iterates over
a copy (`snapshot`) of the registry taken when the loop starts, while
removals act on the live state. -/
def fanout (deliver : Int → Option PyErr) (snapshot : List Int) (st : BotState) : FanoutAcc :=
  snapshot.foldl (fanoutStep deliver) ⟨st, [], []⟩

/-- The Dedup Gate's `Advance`: line 67, `last_sent_article_url =
latest_article.get('url')`. -/
def advance (st : BotState) (itemUrl : Option String) : BotState :=
  { st with lastSentArticleUrl := itemUrl }

/-- Observable outcome of one dispatch tick: the final state, the url of
the article fanned out (if any), and the attempt/delivery logs. -/
structure TickResult where
  st : BotState
  dispatched : Option (Option String)
  attempts : List Int
  delivered : List Int
  deriving DecidableEq

/-- The dispatching phase of a tick that judged article url `u` new:
advance the cursor first (line 67), then fan out over a copy of the
registry (lines 73-80). -/
def dispatchTick (deliver : Int → Option PyErr) (st : BotState) (u : Option String) : TickResult :=
  let st1 := advance st u
  let acc := fanout deliver st1.subscribers st1
  ⟨acc.st, some u, acc.attempts, acc.delivered⟩

/-- `send_hoax_notification` (lines 60-80): one tick of the dispatch loop.
Fetch one article; if the list is `None` or empty do nothing; if the first
article is truthy and its url differs from `last_sent_article_url`, advance
the cursor and fan out. -/
def send_hoax_notification (deliver : Int → Option PyErr) (feed : FeedOutcome)
    (st : BotState) : Except PyErr TickResult :=
  match fetch_latest_hoaxes feed with
  | .error e => .error e
  | .ok none => .ok ⟨st, none, [], []⟩
  | .ok (some []) => .ok ⟨st, none, [], []⟩
  | .ok (some (a :: _)) =>
      if a.truthy ∧ a.url ≠ st.lastSentArticleUrl then
        .ok (dispatchTick deliver st a.url)
      else .ok ⟨st, none, [], []⟩

/-- Run the dispatch job over a sequence of ticks, one feed outcome per
tick (the `job_queue.run_repeating` schedule of line 338), collecting the
urls of the fan-outs that occurred. -/
def runTicks (deliver : Int → Option PyErr) :
    List FeedOutcome → BotState → Except PyErr (BotState × List (Option String))
  | [], st => .ok (st, [])
  | feed :: rest, st =>
      match send_hoax_notification deliver feed st with
      | .error e => .error e
      | .ok r =>
          match runTicks deliver rest r.st with
          | .error e => .error e
          | .ok (stFin, ds) =>
              .ok (stFin, match r.dispatched with
                          | some u => u :: ds
                          | none => ds)

/-- Fold the subscribe entry point over a list of chat ids (an insertion
order). -/
def addAll (xs : List Int) (st : BotState) : BotState :=
  xs.foldl (fun s x => (subscribe_command x s).2) st

/-- The state right after a fresh start with no snapshot. -/
def initialState : BotState := ⟨[], FileState.absent, none, []⟩

/-- A member `x` of the live registry survives the fan-out over `snapshot`
iff it was not attempted, or its delivery succeeded. -/
def survives (deliver : Int → Option PyErr) (snapshot : List Int) (x : Int) : Bool :=
  decide (x ∉ snapshot) || decide (deliver x = none)

/- Concrete instances used by counterexamples and witnesses. -/

/-- A concrete truthy article with url `A`. -/
def artA : Article := ⟨true, some "A", some "TA", some "SA"⟩

/-- A concrete truthy article with url `B`. -/
def artB : Article := ⟨true, some "B", some "TB", some "SB"⟩

/-- A feed tick returning article `artA`. -/
def feedA : FeedOutcome := FeedOutcome.ok 1 [artA]

/-- A feed tick returning article `artB`. -/
def feedB : FeedOutcome := FeedOutcome.ok 1 [artB]

/-- A cold-start state (unset cursor) with one subscriber. -/
def coldState : BotState := ⟨[1], FileState.content [1], none, []⟩

/-- A delivery channel where every send succeeds. -/
def allOk : Int → Option PyErr := fun _ => none

/-- A delivery channel where sending to chat id `2` always raises. -/
def deliverFail2 : Int → Option PyErr :=
  fun c => if c = 2 then some PyErr.sendError else none

/-- A state with registry `{1, 2, 3}` and unset cursor. -/
def st123 : BotState := ⟨[1, 2, 3], FileState.content [1, 2, 3], none, []⟩

/-- The tick result of dispatching `artA` from `st123` through
`deliverFail2`: all three recipients attempted, `1` and `3` delivered, `2`
removed and the removal saved. -/
def res123 : TickResult :=
  ⟨⟨[1, 3], FileState.content [1, 3], some "A", [[1, 3]]⟩, some (some "A"), [1, 2, 3], [1, 3]⟩

/- Fan-out loop lemmas. -/

/-- Every member of the snapshot is attempted, in snapshot order, whatever
the delivery outcomes. -/
theorem fanout_foldl_attempts (deliver : Int → Option PyErr) :
    ∀ (snapshot : List Int) (acc : FanoutAcc),
      (List.foldl (fanoutStep deliver) acc snapshot).attempts = acc.attempts ++ snapshot := by
  intro snapshot
  induction snapshot with
  | nil => intro acc; simp
  | cons c cs ih =>
      intro acc
      have hstep : (fanoutStep deliver acc c).attempts = acc.attempts ++ [c] := by
        unfold fanoutStep
        cases deliver c <;> simp
      rw [List.foldl_cons, ih, hstep]
      simp

/-- Exactly the snapshot members whose delivery succeeds are logged as
delivered, in snapshot order. -/
theorem fanout_foldl_delivered (deliver : Int → Option PyErr) :
    ∀ (snapshot : List Int) (acc : FanoutAcc),
      (List.foldl (fanoutStep deliver) acc snapshot).delivered
        = acc.delivered ++ snapshot.filter (fun c => decide (deliver c = none)) := by
  intro snapshot
  induction snapshot with
  | nil => intro acc; simp
  | cons c cs ih =>
      intro acc
      rw [List.foldl_cons, ih]
      cases hc : deliver c with
      | none => simp [fanoutStep, hc, List.filter_cons]
      | some e => simp [fanoutStep, hc, List.filter_cons]

/-- The fan-out loop never touches the dedup cursor. -/
theorem fanout_foldl_last (deliver : Int → Option PyErr) :
    ∀ (snapshot : List Int) (acc : FanoutAcc),
      (List.foldl (fanoutStep deliver) acc snapshot).st.lastSentArticleUrl
        = acc.st.lastSentArticleUrl := by
  intro snapshot
  induction snapshot with
  | nil => intro acc; simp
  | cons c cs ih =>
      intro acc
      rw [List.foldl_cons, ih]
      cases hc : deliver c with
      | none => simp [fanoutStep, hc]
      | some e => simp [fanoutStep, hc, doSave]

/-- After the loop, the live registry is the initial live registry minus
the snapshot members whose delivery failed. -/
theorem fanout_foldl_subscribers (deliver : Int → Option PyErr) :
    ∀ (snapshot : List Int) (acc : FanoutAcc),
      (List.foldl (fanoutStep deliver) acc snapshot).st.subscribers
        = acc.st.subscribers.filter (survives deliver snapshot) := by
  intro snapshot
  induction snapshot with
  | nil =>
      intro acc
      have htrue : survives deliver [] = fun _ => true := by
        funext x
        simp [survives]
      simp [htrue]
  | cons c cs ih =>
      intro acc
      rw [List.foldl_cons, ih]
      cases hc : deliver c with
      | none =>
          have hstep : (fanoutStep deliver acc c).st.subscribers = acc.st.subscribers := by
            simp [fanoutStep, hc]
          rw [hstep]
          apply List.filter_congr
          intro x _
          by_cases hx : x = c
          · subst hx
            simp [survives, hc]
          · simp [survives, List.mem_cons, hx]
      | some e =>
          have hstep : (fanoutStep deliver acc c).st.subscribers
              = acc.st.subscribers.filter (fun x => decide (x ≠ c)) := by
            simp [fanoutStep, hc, doSave]
          rw [hstep, List.filter_filter]
          apply List.filter_congr
          intro x _
          by_cases hx : x = c
          · subst hx
            simp [survives, hc]
          · simp [survives, List.mem_cons, hx]

/-- Once the snapshot file matches the live registry, the loop preserves
that agreement (each removal immediately re-saves). -/
theorem fanout_foldl_file_inv (deliver : Int → Option PyErr) :
    ∀ (snapshot : List Int) (acc : FanoutAcc),
      acc.st.fileState = FileState.content acc.st.subscribers →
      (List.foldl (fanoutStep deliver) acc snapshot).st.fileState
        = FileState.content (List.foldl (fanoutStep deliver) acc snapshot).st.subscribers := by
  intro snapshot
  induction snapshot with
  | nil => intro acc h; simpa using h
  | cons c cs ih =>
      intro acc h
      rw [List.foldl_cons]
      apply ih
      cases hc : deliver c with
      | none => simpa [fanoutStep, hc] using h
      | some e => simp [fanoutStep, hc, doSave, save_subscribers]

/-- If some snapshot member's delivery fails, the loop ends with the
snapshot file equal to the serialized final registry: the removal was
persisted. -/
theorem fanout_foldl_file_after_failure (deliver : Int → Option PyErr) :
    ∀ (snapshot : List Int) (acc : FanoutAcc) (c : Int),
      c ∈ snapshot → deliver c ≠ none →
      (List.foldl (fanoutStep deliver) acc snapshot).st.fileState
        = FileState.content (List.foldl (fanoutStep deliver) acc snapshot).st.subscribers := by
  intro snapshot
  induction snapshot with
  | nil => intro acc c hc; simp at hc
  | cons d cs ih =>
      intro acc c hc hfail
      rw [List.foldl_cons]
      cases hd : deliver d with
      | some e =>
          apply fanout_foldl_file_inv
          simp [fanoutStep, hd, doSave, save_subscribers]
      | none =>
          rcases List.mem_cons.mp hc with hcd | hcs
          · subst hcd
            exact absurd hd hfail
          · exact ih _ c hcs hfail

/- Dispatching-phase lemmas. -/

/-- A dispatching phase reports the url it fanned out. -/
theorem dispatchTick_dispatched (deliver : Int → Option PyErr) (st : BotState)
    (u : Option String) : (dispatchTick deliver st u).dispatched = some u := rfl

/-- During and after the dispatching phase the cursor holds the dispatched
url: `Advance` ran before the fan-out and the fan-out never writes it. -/
theorem dispatchTick_last (deliver : Int → Option PyErr) (st : BotState) (u : Option String) :
    (dispatchTick deliver st u).st.lastSentArticleUrl = u := by
  simp [dispatchTick, fanout, fanout_foldl_last, advance]

/-- The attempts of a dispatching phase are exactly the registry members at
its start, in order. -/
theorem dispatchTick_attempts (deliver : Int → Option PyErr) (st : BotState) (u : Option String) :
    (dispatchTick deliver st u).attempts = st.subscribers := by
  simp [dispatchTick, fanout, fanout_foldl_attempts, advance]

/-- The successful deliveries of a dispatching phase are the registry
members whose delivery succeeded. -/
theorem dispatchTick_delivered (deliver : Int → Option PyErr) (st : BotState) (u : Option String) :
    (dispatchTick deliver st u).delivered
      = st.subscribers.filter (fun c => decide (deliver c = none)) := by
  simp [dispatchTick, fanout, fanout_foldl_delivered, advance]

/-- After a dispatching phase the registry holds the members whose delivery
succeeded. -/
theorem dispatchTick_subscribers (deliver : Int → Option PyErr) (st : BotState) (u : Option String) :
    (dispatchTick deliver st u).st.subscribers
      = st.subscribers.filter (fun c => decide (deliver c = none)) := by
  have h := fanout_foldl_subscribers deliver (advance st u).subscribers
    ⟨advance st u, [], []⟩
  simp only [dispatchTick, fanout]
  rw [h]
  apply List.filter_congr
  intro x hx
  have hx' : x ∈ st.subscribers := by simpa [advance] using hx
  simp [survives, advance, hx']

/-- If some registry member's delivery fails during a dispatching phase,
the phase ends with the snapshot file holding the final registry. -/
theorem dispatchTick_file_after_failure (deliver : Int → Option PyErr) (st : BotState)
    (u : Option String) (c : Int) (hc : c ∈ st.subscribers) (hfail : deliver c ≠ none) :
    (dispatchTick deliver st u).st.fileState
      = FileState.content (dispatchTick deliver st u).st.subscribers := by
  simp only [dispatchTick, fanout]
  exact fanout_foldl_file_after_failure deliver (advance st u).subscribers
    ⟨advance st u, [], []⟩ c (by simpa [advance] using hc) hfail

/-- A tick whose first article is truthy and new dispatches it. -/
theorem send_dispatch_eq (deliver : Int → Option PyErr) (st : BotState) (a : Article)
    (rest : List Article) (tr : Int) (htr : 0 < tr) (ht : a.truthy = true)
    (hnew : a.url ≠ st.lastSentArticleUrl) :
    send_hoax_notification deliver (FeedOutcome.ok tr (a :: rest)) st
      = Except.ok (dispatchTick deliver st a.url) := by
  simp [send_hoax_notification, fetch_latest_hoaxes, fetchBody, htr, ht, hnew]

/-- A tick whose first article is falsy or not new does nothing. -/
theorem send_skip_eq (deliver : Int → Option PyErr) (st : BotState) (a : Article)
    (rest : List Article) (tr : Int) (htr : 0 < tr)
    (hskip : ¬(a.truthy = true ∧ a.url ≠ st.lastSentArticleUrl)) :
    send_hoax_notification deliver (FeedOutcome.ok tr (a :: rest)) st
      = Except.ok ⟨st, none, [], []⟩ := by
  simp only [send_hoax_notification, fetch_latest_hoaxes, fetchBody, if_pos htr]
  rw [if_neg hskip]

/-- Every tick returns normally: no exception escapes
`send_hoax_notification`, whatever the feed outcome and the delivery
outcomes. -/
theorem send_total (deliver : Int → Option PyErr) (feed : FeedOutcome) (st : BotState) :
    ∃ r, send_hoax_notification deliver feed st = Except.ok r := by
  cases feed with
  | netError => exact ⟨⟨st, none, [], []⟩, rfl⟩
  | httpError => exact ⟨⟨st, none, [], []⟩, rfl⟩
  | decodeError => exact ⟨⟨st, none, [], []⟩, rfl⟩
  | ok tr arts =>
      by_cases htr : 0 < tr
      · cases arts with
        | nil =>
            refine ⟨⟨st, none, [], []⟩, ?_⟩
            simp [send_hoax_notification, fetch_latest_hoaxes, fetchBody, htr]
        | cons a rest =>
            by_cases hc : a.truthy = true ∧ a.url ≠ st.lastSentArticleUrl
            · exact ⟨dispatchTick deliver st a.url,
                send_dispatch_eq deliver st a rest tr htr hc.1 hc.2⟩
            · exact ⟨⟨st, none, [], []⟩, send_skip_eq deliver st a rest tr htr hc⟩
      · refine ⟨⟨st, none, [], []⟩, ?_⟩
        simp [send_hoax_notification, fetch_latest_hoaxes, fetchBody, htr]

/-- Case analysis of a completed tick: either nothing was dispatched and
the state is untouched, or the tick is exactly a dispatching phase for a
url that differed from the cursor. -/
theorem send_ok_cases (deliver : Int → Option PyErr) (feed : FeedOutcome) (st : BotState)
    (r : TickResult) (h : send_hoax_notification deliver feed st = Except.ok r) :
    (r.dispatched = none → r = ⟨st, none, [], []⟩) ∧
    (∀ u, r.dispatched = some u →
       r = dispatchTick deliver st u ∧ u ≠ st.lastSentArticleUrl) := by
  cases feed with
  | netError =>
      have hr : (⟨st, none, [], []⟩ : TickResult) = r := Except.ok.inj h
      rw [← hr]
      exact ⟨fun _ => rfl, fun u hu => by simp at hu⟩
  | httpError =>
      have hr : (⟨st, none, [], []⟩ : TickResult) = r := Except.ok.inj h
      rw [← hr]
      exact ⟨fun _ => rfl, fun u hu => by simp at hu⟩
  | decodeError =>
      have hr : (⟨st, none, [], []⟩ : TickResult) = r := Except.ok.inj h
      rw [← hr]
      exact ⟨fun _ => rfl, fun u hu => by simp at hu⟩
  | ok tr arts =>
      by_cases htr : 0 < tr
      · cases arts with
        | nil =>
            have h2 : send_hoax_notification deliver (FeedOutcome.ok tr []) st
                = Except.ok ⟨st, none, [], []⟩ := by
              simp [send_hoax_notification, fetch_latest_hoaxes, fetchBody, htr]
            rw [h2] at h
            have hr : (⟨st, none, [], []⟩ : TickResult) = r := Except.ok.inj h
            rw [← hr]
            exact ⟨fun _ => rfl, fun u hu => by simp at hu⟩
        | cons a rest =>
            by_cases hc : a.truthy = true ∧ a.url ≠ st.lastSentArticleUrl
            · rw [send_dispatch_eq deliver st a rest tr htr hc.1 hc.2] at h
              have hr : dispatchTick deliver st a.url = r := Except.ok.inj h
              rw [← hr]
              constructor
              · intro hn
                rw [dispatchTick_dispatched] at hn
                simp at hn
              · intro u hu
                rw [dispatchTick_dispatched] at hu
                have huu : a.url = u := Option.some.inj hu
                rw [← huu]
                exact ⟨rfl, hc.2⟩
            · rw [send_skip_eq deliver st a rest tr htr hc] at h
              have hr : (⟨st, none, [], []⟩ : TickResult) = r := Except.ok.inj h
              rw [← hr]
              exact ⟨fun _ => rfl, fun u hu => by simp at hu⟩
      · have h2 : send_hoax_notification deliver (FeedOutcome.ok tr arts) st
            = Except.ok ⟨st, none, [], []⟩ := by
          simp [send_hoax_notification, fetch_latest_hoaxes, fetchBody, htr]
        rw [h2] at h
        have hr : (⟨st, none, [], []⟩ : TickResult) = r := Except.ok.inj h
        rw [← hr]
        exact ⟨fun _ => rfl, fun u hu => by simp at hu⟩

/-- One run step, given the results of the tick and of the remaining
run. -/
theorem runTicks_cons_eq (deliver : Int → Option PyErr) (feed : FeedOutcome)
    (rest : List FeedOutcome) (st : BotState) (r : TickResult)
    (hsend : send_hoax_notification deliver feed st = Except.ok r)
    (stFin : BotState) (ds : List (Option String))
    (hrun : runTicks deliver rest r.st = Except.ok (stFin, ds)) :
    runTicks deliver (feed :: rest) st
      = Except.ok (stFin, match r.dispatched with
                          | some u => u :: ds
                          | none => ds) := by
  simp only [runTicks, hsend, hrun]

/-- Along any run, each fanned-out url differs from the cursor value that
preceded it: consecutive fan-outs never carry the same url, and the first
fan-out differs from the initial cursor. -/
theorem runTicks_chain (deliver : Int → Option PyErr) :
    ∀ (feeds : List FeedOutcome) (st stFin : BotState) (ds : List (Option String)),
      runTicks deliver feeds st = Except.ok (stFin, ds) →
      List.Chain (fun x y => y ≠ x) st.lastSentArticleUrl ds := by
  intro feeds
  induction feeds with
  | nil =>
      intro st stFin ds h
      simp only [runTicks] at h
      have hds : ([] : List (Option String)) = ds := congrArg Prod.snd (Except.ok.inj h)
      rw [← hds]
      exact List.Chain.nil
  | cons feed rest ih =>
      intro st stFin ds h
      obtain ⟨r, hsend⟩ := send_total deliver feed st
      cases hrun : runTicks deliver rest r.st with
      | error e =>
          have herr : runTicks deliver (feed :: rest) st = Except.error e := by
            simp only [runTicks, hsend, hrun]
          rw [herr] at h
          exact absurd h (by simp)
      | ok p =>
          obtain ⟨stF, ds'⟩ := p
          have heq := runTicks_cons_eq deliver feed rest st r hsend stF ds' hrun
          rw [heq] at h
          have hds := congrArg Prod.snd (Except.ok.inj h)
          have hcases := send_ok_cases deliver feed st r hsend
          cases hd : r.dispatched with
          | none =>
              rw [hd] at hds
              have hds2 : ds' = ds := hds
              rw [← hds2]
              have hrst : r.st = st := congrArg TickResult.st (hcases.1 hd)
              have htail := ih r.st stF ds' hrun
              rwa [hrst] at htail
          | some u =>
              rw [hd] at hds
              have hds2 : u :: ds' = ds := hds
              rw [← hds2]
              obtain ⟨hrdt, hune⟩ := hcases.2 u hd
              have hrst : r.st.lastSentArticleUrl = u := by
                rw [hrdt]
                exact dispatchTick_last deliver st u
              have htail := ih r.st stF ds' hrun
              rw [hrst] at htail
              exact List.Chain.cons hune htail

/- Registry lemmas. -/

/-- Deduplicating a stored list does not change the set it denotes. -/
theorem dedup_toFinset (l : List Int) : l.dedup.toFinset = l.toFinset :=
  List.toFinset.ext fun x => by simp [List.mem_dedup]

/-- One subscribe call makes the registry set exactly the old set plus the
new id. -/
theorem subscribe_toFinset (x : Int) (st : BotState) :
    ((subscribe_command x st).2).subscribers.toFinset
      = insert x st.subscribers.toFinset := by
  by_cases hx : x ∈ st.subscribers
  · simp only [subscribe_command, if_pos hx]
    rw [Finset.insert_eq_self.mpr (List.mem_toFinset.mpr hx)]
  · simp only [subscribe_command, if_neg hx, doSave]
    ext a
    simp [or_comm]

/-- Subscribing keeps the registry duplicate-free. -/
theorem subscribe_nodup (x : Int) (st : BotState) (h : st.subscribers.Nodup) :
    ((subscribe_command x st).2).subscribers.Nodup := by
  by_cases hx : x ∈ st.subscribers
  · simpa [subscribe_command, if_pos hx] using h
  · simp only [subscribe_command, if_neg hx, doSave]
    simp [List.nodup_append, h, hx]

/-- Folding subscribes over an insertion order accumulates exactly its
set. -/
theorem addAll_toFinset :
    ∀ (xs : List Int) (st : BotState),
      (addAll xs st).subscribers.toFinset = st.subscribers.toFinset ∪ xs.toFinset := by
  intro xs
  induction xs with
  | nil => intro st; simp [addAll]
  | cons x xs ih =>
      intro st
      have hstep : addAll (x :: xs) st = addAll xs (subscribe_command x st).2 := rfl
      rw [hstep, ih, subscribe_toFinset]
      ext a
      simp [List.mem_toFinset]

/- Claim theorems. -/

/-- C5: for every Feed Source outcome (network error, HTTP error status,
undecodable response, or empty result) and every delivery-channel
behaviour, no exception propagates out of a dispatch-loop tick: the tick
returns normally, and on a failed or empty fetch it leaves the whole state
unchanged with no delivery attempt, so the next scheduled tick simply
retries (there is no retry inside the tick: one tick consumes exactly one
fetch outcome). -/
theorem spec_c5 (deliver : Int → Option PyErr) (feed : FeedOutcome) (st : BotState) :
    (∃ r, send_hoax_notification deliver feed st = Except.ok r) ∧
    (feed = FeedOutcome.netError ∨ feed = FeedOutcome.httpError ∨ feed = FeedOutcome.decodeError →
       send_hoax_notification deliver feed st = Except.ok ⟨st, none, [], []⟩) ∧
    (∀ tr arts, feed = FeedOutcome.ok tr arts → ¬ 0 < tr →
       send_hoax_notification deliver feed st = Except.ok ⟨st, none, [], []⟩) := by
  refine ⟨send_total deliver feed st, ?_, ?_⟩
  · rintro (rfl | rfl | rfl) <;> rfl
  · rintro tr arts rfl htr
    simp [send_hoax_notification, fetch_latest_hoaxes, fetchBody, htr]

/-- Witness for C5 at a concrete failing fetch. -/
theorem spec_c5_witness :
    send_hoax_notification allOk FeedOutcome.netError initialState
      = Except.ok ⟨initialState, none, [], []⟩ :=
  (spec_c5 allOk FeedOutcome.netError initialState).2.1 (Or.inl rfl)

/-- C6: at startup, an absent snapshot file yields an empty registry and
the process starts serving; a malformed (syntactically invalid) snapshot
file makes `json.load` raise out of `load_subscribers` and `main`, so the
process does not start serving. -/
theorem spec_c6 :
    main FileState.absent = Except.ok ⟨[], FileState.absent, none, []⟩ ∧
    main FileState.malformedFile = Except.error PyErr.jsonDecodeError :=
  ⟨rfl, rfl⟩

/-- C7: `Persist()` followed by `Load()` into a fresh registry reproduces
the original recipient set, for every registry contents and independently
of the insertion order that built the registry. -/
theorem spec_c7 (st : BotState) (xs ys : List Int) (hperm : xs.Perm ys) :
    (∀ subs2, load_subscribers (save_subscribers st.subscribers) = Except.ok subs2 →
       subs2.toFinset = st.subscribers.toFinset) ∧
    (addAll xs initialState).subscribers.toFinset
      = (addAll ys initialState).subscribers.toFinset ∧
    (∀ subs2, load_subscribers (save_subscribers (addAll xs initialState).subscribers)
        = Except.ok subs2 → subs2.toFinset = xs.toFinset) := by
  have hload : ∀ l : List Int,
      load_subscribers (save_subscribers l) = Except.ok l.dedup := fun l => rfl
  refine ⟨?_, ?_, ?_⟩
  · intro subs2 h
    rw [hload] at h
    rw [← Except.ok.inj h, dedup_toFinset]
  · rw [addAll_toFinset, addAll_toFinset]
    simp only [initialState, List.toFinset_nil, Finset.empty_union]
    exact List.toFinset_eq_of_perm xs ys hperm
  · intro subs2 h
    rw [hload] at h
    rw [← Except.ok.inj h, dedup_toFinset, addAll_toFinset]
    simp [initialState]

/-- Witness for C7 at a concrete registry and two insertion orders. -/
theorem spec_c7_witness :
    (addAll [1, 2] initialState).subscribers.toFinset
        = (addAll [2, 1] initialState).subscribers.toFinset ∧
    ([1, 2, 3] : List Int).toFinset = st123.subscribers.toFinset := by
  have h := spec_c7 st123 [1, 2] [2, 1] (by decide)
  exact ⟨h.2.1, h.1 [1, 2, 3] rfl⟩

/-- C9: `Add(x)` is idempotent: from any duplicate-free registry, two
consecutive subscribe calls for `x` leave exactly one occurrence of `x`,
the second call reports `already_present` and does not persist, and the
first call persists exactly when it actually added `x`. -/
theorem spec_c9 (x : Int) (st : BotState) (hnd : st.subscribers.Nodup) :
    ((subscribe_command x (subscribe_command x st).2).2).subscribers.count x = 1 ∧
    (subscribe_command x (subscribe_command x st).2).1 = AddOutcome.already_present ∧
    ((subscribe_command x (subscribe_command x st).2).2).saveLog
      = ((subscribe_command x st).2).saveLog ∧
    ((subscribe_command x st).1 = AddOutcome.added →
       ((subscribe_command x st).2).saveLog = st.saveLog ++ [st.subscribers ++ [x]]) ∧
    ((subscribe_command x st).1 = AddOutcome.already_present →
       (subscribe_command x st).2 = st) := by
  by_cases hx : x ∈ st.subscribers
  · have h1 : subscribe_command x st = (AddOutcome.already_present, st) := by
      simp [subscribe_command, hx]
    refine ⟨?_, ?_, ?_, ?_, ?_⟩
    · rw [h1]
      rw [h1]
      exact List.count_eq_one_of_mem hnd hx
    · rw [h1, h1]
    · rw [h1, h1]
    · rw [h1]
      intro hcontra
      simp at hcontra
    · intro _
      rw [h1]
  · have h1 : subscribe_command x st
        = (AddOutcome.added, doSave { st with subscribers := st.subscribers ++ [x] }) := by
      simp [subscribe_command, hx]
    have hmem2 : x ∈ (doSave { st with subscribers := st.subscribers ++ [x] }).subscribers := by
      simp [doSave]
    refine ⟨?_, ?_, ?_, ?_, ?_⟩
    · rw [h1]
      simp [subscribe_command, hmem2, doSave, List.count_append]
      exact List.count_eq_zero.mpr hx
    · rw [h1]
      simp [subscribe_command, hmem2]
    · rw [h1]
      simp [subscribe_command, hmem2]
    · rw [h1]
      intro _
      simp [doSave]
    · rw [h1]
      intro hcontra
      simp at hcontra

/-- Witness for C9 at a concrete id and the fresh-start registry. -/
theorem spec_c9_witness :
    ((subscribe_command 5 (subscribe_command 5 initialState).2).2).subscribers.count 5 = 1 ∧
    (subscribe_command 5 (subscribe_command 5 initialState).2).1 = AddOutcome.already_present ∧
    ((subscribe_command 5 initialState).2).saveLog
      = initialState.saveLog ++ [initialState.subscribers ++ [5]] := by
  have h := spec_c9 5 initialState (by decide)
  exact ⟨h.1, h.2.1, h.2.2.2.1 rfl⟩

/-- C1 counterexample: the claim says that on a tick with unset cursor the
loop seeds the cursor but makes no delivery attempt.  In the code the
guard is `latest_article.get('url') != last_sent_article_url`, which is
true for any non-null url against the unset cursor, so the very first tick
both seeds the cursor and fans out: from cursor `none` with registry
`[7]`, fetching an article with url `A` seeds the cursor to `A` and makes
one delivery attempt (to recipient `7`). -/
theorem spec_c1_counterexample :
    send_hoax_notification allOk (FeedOutcome.ok 1 [artA])
        ⟨[7], FileState.content [7], none, []⟩
      = Except.ok ⟨⟨[7], FileState.content [7], some "A", []⟩, some (some "A"), [7], [7]⟩ ∧
    ([7] : List Int).length = 1 :=
  ⟨rfl, rfl⟩

/-- C1 (amended): on a tick where the dedup cursor is unset, the dispatch
loop seeds the cursor with the first observed item's url and does NOT
suppress fan-out: it attempts delivery to every recipient, for every first
fetched item that is truthy with a non-null url.  Only an item whose url
is null (comparing equal to the unset cursor) produces no seeding and no
fan-out. -/
theorem spec_c1_amended (deliver : Int → Option PyErr) (st : BotState) (a : Article)
    (rest : List Article) (tr : Int)
    (hcold : st.lastSentArticleUrl = none) (htr : 0 < tr) :
    (∀ u, a.truthy = true → a.url = some u →
       ∀ r, send_hoax_notification deliver (FeedOutcome.ok tr (a :: rest)) st = Except.ok r →
         r.st.lastSentArticleUrl = some u ∧ r.attempts = st.subscribers ∧
         r.dispatched = some (some u)) ∧
    (a.url = none →
       send_hoax_notification deliver (FeedOutcome.ok tr (a :: rest)) st
         = Except.ok ⟨st, none, [], []⟩) := by
  constructor
  · intro u ht hu r hr
    have hnew : a.url ≠ st.lastSentArticleUrl := by
      rw [hu, hcold]
      simp
    rw [send_dispatch_eq deliver st a rest tr htr ht hnew] at hr
    rw [← Except.ok.inj hr, hu]
    exact ⟨dispatchTick_last deliver st (some u), dispatchTick_attempts deliver st (some u),
      dispatchTick_dispatched deliver st (some u)⟩
  · intro hu
    apply send_skip_eq deliver st a rest tr htr
    rw [hu, hcold]
    simp

/-- Witness for the amended C1 at a concrete cold start. -/
theorem spec_c1_amended_witness :
    (⟨⟨[7], FileState.content [7], some "A", []⟩, some (some "A"),
        [7], [7]⟩ : TickResult).st.lastSentArticleUrl = some "A" ∧
    (⟨⟨[7], FileState.content [7], some "A", []⟩, some (some "A"),
        [7], [7]⟩ : TickResult).attempts
      = (⟨[7], FileState.content [7], none, []⟩ : BotState).subscribers ∧
    (⟨⟨[7], FileState.content [7], some "A", []⟩, some (some "A"),
        [7], [7]⟩ : TickResult).dispatched = some (some "A") :=
  (spec_c1_amended allOk ⟨[7], FileState.content [7], none, []⟩ artA [] 1 rfl
      (by decide)).1 "A" rfl rfl
    ⟨⟨[7], FileState.content [7], some "A", []⟩, some (some "A"), [7], [7]⟩ rfl

/-- C2 counterexample: the claim says the cold-start run on
`[A, A, B, B, A]` performs exactly one fan-out, for `B` only.  Running the
five ticks of the embedded code from a cold start with one recipient and a
fully successful channel produces three fan-outs: `A`, then `B`, then `A`
again. -/
theorem spec_c2_counterexample :
    (runTicks allOk [feedA, feedA, feedB, feedB, feedA] coldState).map Prod.snd
      = Except.ok [some "A", some "B", some "A"] ∧
    ([some "A", some "B", some "A"] : List (Option String)).length = 3 :=
  ⟨rfl, rfl⟩

/-- C2 (amended): from a cold start (unset cursor), running one tick per
item on the fetched sequence `[A, A, B, B, A]` (items compared by url,
`A` and `B` distinct) performs exactly three fan-outs, in order: `A` on
the first tick, `B` on the third, and `A` again on the fifth — whatever
the recipient set and the delivery outcomes. -/
theorem spec_c2_amended (deliver : Int → Option PyErr) (st : BotState) (a b : String)
    (aA aB : Article) (hA : aA.truthy = true) (hB : aB.truthy = true)
    (huA : aA.url = some a) (huB : aB.url = some b)
    (hcold : st.lastSentArticleUrl = none) (hab : a ≠ b) :
    (runTicks deliver [FeedOutcome.ok 1 [aA], FeedOutcome.ok 1 [aA], FeedOutcome.ok 1 [aB],
        FeedOutcome.ok 1 [aB], FeedOutcome.ok 1 [aA]] st).map Prod.snd
      = Except.ok [some a, some b, some a] := by
  have hone : (0 : Int) < 1 := by decide
  have h1 : send_hoax_notification deliver (FeedOutcome.ok 1 [aA]) st
      = Except.ok (dispatchTick deliver st (some a)) := by
    have h := send_dispatch_eq deliver st aA [] 1 hone hA (by rw [huA, hcold]; simp)
    rwa [huA] at h
  have hs1 : (dispatchTick deliver st (some a)).st.lastSentArticleUrl = some a :=
    dispatchTick_last deliver st (some a)
  have h2 : send_hoax_notification deliver (FeedOutcome.ok 1 [aA])
        (dispatchTick deliver st (some a)).st
      = Except.ok ⟨(dispatchTick deliver st (some a)).st, none, [], []⟩ := by
    apply send_skip_eq deliver (dispatchTick deliver st (some a)).st aA [] 1 hone
    rw [huA, hs1]
    simp
  have h3 : send_hoax_notification deliver (FeedOutcome.ok 1 [aB])
        (dispatchTick deliver st (some a)).st
      = Except.ok (dispatchTick deliver (dispatchTick deliver st (some a)).st (some b)) := by
    have h := send_dispatch_eq deliver (dispatchTick deliver st (some a)).st aB [] 1 hone hB
      (by rw [huB, hs1]; simpa using hab.symm)
    rwa [huB] at h
  have hs2 : (dispatchTick deliver (dispatchTick deliver st (some a)).st (some b)).st.lastSentArticleUrl
      = some b :=
    dispatchTick_last deliver (dispatchTick deliver st (some a)).st (some b)
  have h4 : send_hoax_notification deliver (FeedOutcome.ok 1 [aB])
        (dispatchTick deliver (dispatchTick deliver st (some a)).st (some b)).st
      = Except.ok ⟨(dispatchTick deliver (dispatchTick deliver st (some a)).st (some b)).st,
          none, [], []⟩ := by
    apply send_skip_eq deliver
      (dispatchTick deliver (dispatchTick deliver st (some a)).st (some b)).st aB [] 1 hone
    rw [huB, hs2]
    simp
  have h5 : send_hoax_notification deliver (FeedOutcome.ok 1 [aA])
        (dispatchTick deliver (dispatchTick deliver st (some a)).st (some b)).st
      = Except.ok (dispatchTick deliver
          (dispatchTick deliver (dispatchTick deliver st (some a)).st (some b)).st (some a)) := by
    have h := send_dispatch_eq deliver
      (dispatchTick deliver (dispatchTick deliver st (some a)).st (some b)).st aA [] 1 hone hA
      (by rw [huA, hs2]; simpa using hab)
    rwa [huA] at h
  have r5 : runTicks deliver [FeedOutcome.ok 1 [aA]]
        (dispatchTick deliver (dispatchTick deliver st (some a)).st (some b)).st
      = Except.ok ((dispatchTick deliver
          (dispatchTick deliver (dispatchTick deliver st (some a)).st (some b)).st (some a)).st,
          [some a]) :=
    runTicks_cons_eq deliver (FeedOutcome.ok 1 [aA]) [] _ _ h5 _ [] rfl
  have r4 : runTicks deliver [FeedOutcome.ok 1 [aB], FeedOutcome.ok 1 [aA]]
        (dispatchTick deliver (dispatchTick deliver st (some a)).st (some b)).st
      = Except.ok ((dispatchTick deliver
          (dispatchTick deliver (dispatchTick deliver st (some a)).st (some b)).st (some a)).st,
          [some a]) :=
    runTicks_cons_eq deliver (FeedOutcome.ok 1 [aB]) [FeedOutcome.ok 1 [aA]] _ _ h4 _ [some a] r5
  have r3 : runTicks deliver [FeedOutcome.ok 1 [aB], FeedOutcome.ok 1 [aB], FeedOutcome.ok 1 [aA]]
        (dispatchTick deliver st (some a)).st
      = Except.ok ((dispatchTick deliver
          (dispatchTick deliver (dispatchTick deliver st (some a)).st (some b)).st (some a)).st,
          [some b, some a]) :=
    runTicks_cons_eq deliver (FeedOutcome.ok 1 [aB]) _ _ _ h3 _ [some a] r4
  have r2 : runTicks deliver [FeedOutcome.ok 1 [aA], FeedOutcome.ok 1 [aB], FeedOutcome.ok 1 [aB],
        FeedOutcome.ok 1 [aA]] (dispatchTick deliver st (some a)).st
      = Except.ok ((dispatchTick deliver
          (dispatchTick deliver (dispatchTick deliver st (some a)).st (some b)).st (some a)).st,
          [some b, some a]) :=
    runTicks_cons_eq deliver (FeedOutcome.ok 1 [aA]) _ _ _ h2 _ [some b, some a] r3
  have r1 : runTicks deliver [FeedOutcome.ok 1 [aA], FeedOutcome.ok 1 [aA], FeedOutcome.ok 1 [aB],
        FeedOutcome.ok 1 [aB], FeedOutcome.ok 1 [aA]] st
      = Except.ok ((dispatchTick deliver
          (dispatchTick deliver (dispatchTick deliver st (some a)).st (some b)).st (some a)).st,
          [some a, some b, some a]) :=
    runTicks_cons_eq deliver (FeedOutcome.ok 1 [aA]) _ _ _ h1 _ [some b, some a] r2
  rw [r1]
  rfl

/-- Witness for the amended C2 at a concrete cold start. -/
theorem spec_c2_amended_witness :
    (runTicks allOk [FeedOutcome.ok 1 [artA], FeedOutcome.ok 1 [artA], FeedOutcome.ok 1 [artB],
        FeedOutcome.ok 1 [artB], FeedOutcome.ok 1 [artA]] coldState).map Prod.snd
      = Except.ok [some "A", some "B", some "A"] :=
  spec_c2_amended allOk coldState "A" "B" artA artB rfl rfl rfl rfl rfl (by decide)

/-- C3 counterexample: the claim says the same item id is never fanned out
twice along any execution.  The cursor only remembers the most recent
item: on the cold-start run `[A, B, A]` the url `A` is fanned out twice
(ticks 1 and 3), because at tick 3 the cursor holds `B`. -/
theorem spec_c3_counterexample :
    (runTicks allOk [feedA, feedB, feedA] coldState).map Prod.snd
      = Except.ok [some "A", some "B", some "A"] ∧
    ([some "A", some "B", some "A"] : List (Option String)).count (some "A") = 2 :=
  ⟨rfl, rfl⟩

/-- C3 (amended): in every tick that judges an item new, the cursor is set
to the item's url strictly before any delivery attempt — the tick is
exactly a dispatching phase run from the cursor-advanced state, and the
cursor already holds the dispatched url when the fan-out runs.
Consequently no two CONSECUTIVE fan-outs carry the same url (and the first
differs from the initial cursor); an url may be dispatched again after a
different item intervenes. -/
theorem spec_c3_amended (deliver : Int → Option PyErr) (st : BotState)
    (feeds : List FeedOutcome) :
    (∀ feed r u, send_hoax_notification deliver feed st = Except.ok r →
       r.dispatched = some u →
       r = dispatchTick deliver st u ∧ r.st.lastSentArticleUrl = u) ∧
    (∀ stFin ds, runTicks deliver feeds st = Except.ok (stFin, ds) →
       List.Chain (fun x y => y ≠ x) st.lastSentArticleUrl ds) := by
  constructor
  · intro feed r u hok hd
    obtain ⟨hrdt, _⟩ := (send_ok_cases deliver feed st r hok).2 u hd
    refine ⟨hrdt, ?_⟩
    rw [hrdt]
    exact dispatchTick_last deliver st u
  · intro stFin ds h
    exact runTicks_chain deliver feeds st stFin ds h

/-- Witness for the amended C3 on the concrete run `[A, B, A]`. -/
theorem spec_c3_amended_witness :
    List.Chain (fun (x y : Option String) => y ≠ x) none [some "A", some "B", some "A"] :=
  (spec_c3_amended allOk coldState [feedA, feedB, feedA]).2
    ⟨[1], FileState.content [1], some "A", []⟩ [some "A", some "B", some "A"] rfl

/-- C4: in one dispatch cycle over registry `{r1, r2, r3}` where delivery
to `r2` always raises and delivery to `r1` and `r3` succeeds, the message
is still delivered to `r1` and `r3`, and afterwards the registry is
`{r1, r3}` with the removal persisted to the snapshot file. -/
theorem spec_c4 (deliver : Int → Option PyErr) (st : BotState) (r1 r2 r3 : Int) (er : PyErr)
    (a : Article) (rest : List Article) (tr : Int)
    (hset : st.subscribers.toFinset = {r1, r2, r3})
    (h12 : r1 ≠ r2) (h23 : r2 ≠ r3)
    (hd1 : deliver r1 = none) (hd2 : deliver r2 = some er) (hd3 : deliver r3 = none)
    (htr : 0 < tr) (ht : a.truthy = true) (hnew : a.url ≠ st.lastSentArticleUrl) :
    ∀ r, send_hoax_notification deliver (FeedOutcome.ok tr (a :: rest)) st = Except.ok r →
      r.delivered.toFinset = {r1, r3} ∧
      r.st.subscribers.toFinset = {r1, r3} ∧
      r.st.fileState = FileState.content r.st.subscribers := by
  intro r hr
  rw [send_dispatch_eq deliver st a rest tr htr ht hnew] at hr
  rw [← Except.ok.inj hr]
  have hm2 : r2 ∈ st.subscribers := by
    have h : r2 ∈ st.subscribers.toFinset := by
      rw [hset]
      simp
    exact List.mem_toFinset.mp h
  have hfilter : (st.subscribers.filter (fun c => decide (deliver c = none))).toFinset
      = {r1, r3} := by
    ext x
    simp only [List.mem_toFinset, List.mem_filter, decide_eq_true_eq, Finset.mem_insert,
      Finset.mem_singleton]
    constructor
    · rintro ⟨hxs, hxd⟩
      have hx3 : x ∈ ({r1, r2, r3} : Finset Int) := by
        rw [← hset]
        exact List.mem_toFinset.mpr hxs
      simp only [Finset.mem_insert, Finset.mem_singleton] at hx3
      rcases hx3 with h | h | h
      · exact Or.inl h
      · rw [h, hd2] at hxd
        exact absurd hxd (by simp)
      · exact Or.inr h
    · intro hx
      rcases hx with h | h
      · subst h
        refine ⟨?_, hd1⟩
        apply List.mem_toFinset.mp
        rw [hset]
        simp
      · subst h
        refine ⟨?_, hd3⟩
        apply List.mem_toFinset.mp
        rw [hset]
        simp
  refine ⟨?_, ?_, ?_⟩
  · rw [dispatchTick_delivered]
    exact hfilter
  · rw [dispatchTick_subscribers]
    exact hfilter
  · exact dispatchTick_file_after_failure deliver st a.url r2 hm2 (by rw [hd2]; simp)

/-- Witness for C4 at registry `[1, 2, 3]` with delivery to `2` failing. -/
theorem spec_c4_witness :
    res123.delivered.toFinset = {1, 3} ∧
    res123.st.subscribers.toFinset = {1, 3} ∧
    res123.st.fileState = FileState.content res123.st.subscribers :=
  spec_c4 deliverFail2 st123 1 2 3 PyErr.sendError artA [] 1 (by decide) (by decide)
    (by decide) rfl rfl rfl (by decide) rfl (by decide) res123 rfl

/-- C8 counterexample: the claim says `Persist()` writes to a temporary
location and renames it over the snapshot so that no partially-written
snapshot is ever observable.  `save_subscribers` opens `subscribers.json`
itself in write mode — the first step truncates the live snapshot in
place, an observable partially-written state on which `Load()` raises. -/
theorem spec_c8_counterexample :
    save_subscribers_steps [1] = [FileState.truncated, FileState.content [1]] ∧
    FileState.truncated ∈ save_subscribers_steps [1] ∧
    load_subscribers FileState.truncated = Except.error PyErr.jsonDecodeError :=
  ⟨rfl, by simp [save_subscribers_steps], rfl⟩

/-- C8 (amended): `Persist()` overwrites the snapshot in place, not
atomically: it truncates `subscribers.json` by opening it in write mode
and then writes the full serialization, so between the two steps a
partially-written (truncated) snapshot — distinct from every complete
snapshot — is observable.  The final state does hold the full serialized
set. -/
theorem spec_c8_amended (subs : List Int) :
    save_subscribers_steps subs = [FileState.truncated, save_subscribers subs] ∧
    (save_subscribers_steps subs).getLast? = some (FileState.content subs) ∧
    FileState.truncated ∈ save_subscribers_steps subs ∧
    ∀ l, FileState.truncated ≠ FileState.content l := by
  refine ⟨rfl, rfl, ?_, ?_⟩
  · simp [save_subscribers_steps]
  · intro l h
    simp at h

/-- Witness for the amended C8 at a concrete registry. -/
theorem spec_c8_amended_witness :
    (save_subscribers_steps [2]).getLast? = some (FileState.content [2]) :=
  (spec_c8_amended [2]).2.1

/-- C10: fan-out iterates over a copy of the registry taken when the
dispatching phase starts: every recipient present at that moment receives
exactly one delivery attempt in the cycle, even though recipients whose
delivery fails are removed from the live registry while the loop is still
running (the final registry keeps exactly the members whose delivery
succeeded). -/
theorem spec_c10 (deliver : Int → Option PyErr) (st : BotState) (a : Article)
    (rest : List Article) (tr : Int) (hnd : st.subscribers.Nodup)
    (htr : 0 < tr) (ht : a.truthy = true) (hnew : a.url ≠ st.lastSentArticleUrl) :
    ∀ r, send_hoax_notification deliver (FeedOutcome.ok tr (a :: rest)) st = Except.ok r →
      r.attempts = st.subscribers ∧
      (∀ c, c ∈ st.subscribers → r.attempts.count c = 1) ∧
      r.st.subscribers = st.subscribers.filter (fun c => decide (deliver c = none)) := by
  intro r hr
  rw [send_dispatch_eq deliver st a rest tr htr ht hnew] at hr
  rw [← Except.ok.inj hr]
  refine ⟨dispatchTick_attempts deliver st a.url, ?_, dispatchTick_subscribers deliver st a.url⟩
  intro c hc
  rw [dispatchTick_attempts]
  exact List.count_eq_one_of_mem hnd hc

/-- Witness for C10 at registry `[1, 2, 3]` with delivery to `2` failing. -/
theorem spec_c10_witness :
    res123.attempts = st123.subscribers ∧
    res123.attempts.count 2 = 1 ∧
    res123.st.subscribers = st123.subscribers.filter (fun c => decide (deliverFail2 c = none)) := by
  have h := spec_c10 deliverFail2 st123 artA [] 1 (by decide) (by decide) rfl (by decide)
    res123 rfl
  exact ⟨h.1, h.2.1 2 (by decide), h.2.2⟩

end CekFakta
